import Mathlib

/-!
Verification development for the Mathura repository's authentication core
(OTP engine and account state machine) and two frontend utilities
(environment configuration and the fetch retry helper).

The OTP engine and account state machine are described in the repository's
design document; the backend controller implementing them is referenced by
the auth routes (`src/unnamed/part_000`) but its source is not part of the
provided tree, so those components are modelled from the spec.  The
environment-configuration functions (`src/unnamed/part_003`) and the retry
helper (`src/frontend/app/lib/fetch-util.ts`) are embedded directly from
their TypeScript source.
-/

/-- Modelled from the spec: the OTP purpose is a closed tagged variant
`registration | login | passwordReset`. -/
inductive Purpose where
  | registration
  | login
  | passwordReset
deriving DecidableEq, Repr

/-- Modelled from the spec: the error kinds of §7 surfaced by the auth core. -/
inductive AuthErr where
  | conflict
  | notFound
  | unauthorized
  | expired
  | invalidCode
  | invalidToken
  | purposeMismatch
  | throttled
  | locked
deriving DecidableEq, Repr

/-- Modelled from the spec: the `pendingOtp` structure stored on a User:
`{ codeHash, purpose, createdAt, expiresAt, attempts, lastSentAt }`.
Timestamps are seconds as natural numbers. -/
structure PendingOtp where
  codeHash : Nat
  purpose : Purpose
  createdAt : Nat
  expiresAt : Nat
  attempts : Nat
  lastSentAt : Nat
deriving DecidableEq, Repr

/-- Modelled from the spec: the User record of §3 (fields the auth flows
touch). `pendingOtp` is an `Option`, encoding the at-most-one-pending-OTP
data model. -/
structure User where
  id : Nat
  email : String
  name : String
  passwordHash : String
  verified : Bool
  pendingOtp : Option PendingOtp
deriving DecidableEq, Repr

/-- Modelled from the spec: the configuration passed to the OTP engine:
attempt limit (default 5), OTP time-to-live (default 5 minutes = 300 s) and
resend cooldown (default 60 s). -/
structure OtpConfig where
  maxAttempts : Nat
  otpTtl : Nat
  cooldown : Nat
deriving DecidableEq, Repr

/-- Modelled from the spec: the default configuration (maxAttempts 5,
expiry 5 minutes, cooldown 60 seconds). -/
def defaultOtpConfig : OtpConfig :=
  { maxAttempts := 5, otpTtl := 300, cooldown := 60 }

/-- Modelled from the spec: the one-way code hash.  Abstracted as the
identity on 6-digit codes: all the claims need is that a stored hash
matches exactly the code it was computed from (collisions are out of
scope), so the hash is modelled as an injective function. -/
def hashOtp (code : Nat) : Nat := code

/-- Modelled from the spec: OTP Engine `issue(userId, purpose)`.  The fresh
6-digit random code is supplied by the caller (`code`), externalising the
randomness.  Overwrites any existing pending OTP regardless of purpose,
sets `expiresAt = now + ttl`, resets `attempts = 0`, records
`lastSentAt = now`, and returns the plaintext code for delivery. -/
def otpIssue (cfg : OtpConfig) (now code : Nat) (p : Purpose) (u : User) :
    User × Nat :=
  ({ u with pendingOtp := some {
        codeHash := hashOtp code, purpose := p, createdAt := now,
        expiresAt := now + cfg.otpTtl, attempts := 0, lastSentAt := now } },
   code)

/-- Modelled from the spec: OTP Engine `resend(userId, purpose)`.  Fails
with `ThrottledError` if `now - lastSentAt` is below the cooldown window;
otherwise behaves as `issue`.  When no OTP is pending there is no
`lastSentAt` to throttle on, so it behaves as `issue` (the state-machine
level `resendOtp` separately rejects that case with `NotFoundError`). -/
def otpResend (cfg : OtpConfig) (now code : Nat) (p : Purpose) (u : User) :
    Except AuthErr (User × Nat) :=
  match u.pendingOtp with
  | some o =>
      if now - o.lastSentAt < cfg.cooldown then Except.error AuthErr.throttled
      else Except.ok (otpIssue cfg now code p u)
  | none => Except.ok (otpIssue cfg now code p u)

/-- Modelled from the spec: OTP Engine `verify(userId, purpose, candidate)`.
Returns the post-state of the user together with the outcome, since a
failed attempt still persists the incremented attempt counter.  Fails with
`NotFoundError` when no OTP is pending, `ExpiredError` when `now` is past
`expiresAt`, `PurposeMismatchError` on a purpose mismatch; on a hash
mismatch increments `attempts` and fails with `InvalidCodeError`,
additionally invalidating (clearing) the OTP once `attempts` reaches the
maximum; on a match clears `pendingOtp` and succeeds. -/
def otpVerify (cfg : OtpConfig) (now : Nat) (p : Purpose) (candidate : Nat)
    (u : User) : User × Except AuthErr Unit :=
  match u.pendingOtp with
  | none => (u, Except.error AuthErr.notFound)
  | some o =>
      if o.expiresAt < now then (u, Except.error AuthErr.expired)
      else if o.purpose ≠ p then (u, Except.error AuthErr.purposeMismatch)
      else if hashOtp candidate = o.codeHash then
        ({ u with pendingOtp := none }, Except.ok ())
      else if o.attempts + 1 ≥ cfg.maxAttempts then
        ({ u with pendingOtp := none }, Except.error AuthErr.invalidCode)
      else
        ({ u with pendingOtp := some { o with attempts := o.attempts + 1 } },
         Except.error AuthErr.invalidCode)

/-- Modelled from the spec: Password Codec `hash`.  The salted slow hash is
abstracted as the identity, which preserves exactly the property the state
machine relies on: `verify(plaintext, hash)` holds iff the plaintext is the
password the hash was computed from. -/
def pcHash (plaintext : String) : String := plaintext

/-- Modelled from the spec: Password Codec `verify(plaintext, hash)`. -/
def pcVerify (plaintext stored : String) : Bool := pcHash plaintext == stored

/-- Modelled from the spec: a session token minted by the Session Issuer,
binding the user id and an expiry. -/
structure SessionToken where
  userId : Nat
  expiresAt : Nat
deriving DecidableEq, Repr

/-- Modelled from the spec: Session Issuer `mint(userId)`, with a lifetime
of one day (86400 s). -/
def sessionMint (uid now : Nat) : SessionToken :=
  { userId := uid, expiresAt := now + 86400 }

/-- Modelled from the spec: Credential Store `findByEmail` over a list of
user records. -/
def findByEmail (users : List User) (email : String) : Option User :=
  users.find? (fun u => u.email == email)

/-- Modelled from the spec: Credential Store write-back of an updated user
record, keyed by id. -/
def updateById (users : List User) (uid : Nat) (u' : User) : List User :=
  users.map (fun v => if v.id == uid then u' else v)

/-- Modelled from the spec: Account State Machine `login(email, password)`.
Fails with `NotFoundError` if no user matches the email; fails with
`UnauthorizedError` if the password fails Password Codec verification or if
`verified = false`.  On success issues an OTP of purpose `login` and
returns the updated store together with the user id — the result carries no
`SessionToken`, so no session token is issued on this path. -/
def loginSM (cfg : OtpConfig) (now code : Nat) (users : List User)
    (email password : String) : Except AuthErr (List User × Nat) :=
  match findByEmail users email with
  | none => Except.error AuthErr.notFound
  | some u =>
      if pcVerify password u.passwordHash && u.verified then
        Except.ok (updateById users u.id (otpIssue cfg now code Purpose.login u).1, u.id)
      else Except.error AuthErr.unauthorized

/-- Modelled from the spec: Account State Machine
`verifyRegistration(userId, code)`.  Delegates to OTP Engine `verify` with
purpose `registration`; on success sets `verified := true` and immediately
mints a session token via the Session Issuer (auto-login); on failure
propagates the OTP Engine's error unchanged.  Returns the post-state of
the user alongside the outcome so that failed attempts persist the
incremented attempt counter. -/
def verifyRegistration (cfg : OtpConfig) (now code : Nat) (u : User) :
    User × Except AuthErr SessionToken :=
  match otpVerify cfg now Purpose.registration code u with
  | (u', Except.ok ()) => ({ u' with verified := true }, Except.ok (sessionMint u.id now))
  | (u', Except.error e) => (u', Except.error e)

/-- Modelled from the spec: Account State Machine `forgotPassword(email)`.
Fails with `NotFoundError` if no user has the email; otherwise issues an
OTP of purpose `passwordReset` for the matching user and returns the
updated store with the plaintext code for delivery. -/
def forgotPasswordSM (cfg : OtpConfig) (now code : Nat) (users : List User)
    (email : String) : Except AuthErr (List User × Nat) :=
  match findByEmail users email with
  | none => Except.error AuthErr.notFound
  | some u =>
      Except.ok (updateById users u.id (otpIssue cfg now code Purpose.passwordReset u).1,
                 (otpIssue cfg now code Purpose.passwordReset u).2)

/-- Modelled from the spec: Account State Machine `resendOtp(userId)`.
Takes no purpose argument: it looks up the purpose of the user's currently
pending OTP and delegates to OTP Engine `resend` for that purpose; fails
with `NotFoundError` when the user has no pending OTP. -/
def resendOtpSM (cfg : OtpConfig) (now code : Nat) (u : User) :
    Except AuthErr (User × Nat) :=
  match u.pendingOtp with
  | none => Except.error AuthErr.notFound
  | some o => otpResend cfg now code o.purpose u

/-- Number of pending OTPs held by a user record (0 or 1 by the shape of
the data model). -/
def pendingCount (u : User) : Nat :=
  match u.pendingOtp with
  | some _ => 1
  | none => 0

/-- Environment configuration record, from `EnvironmentConfig` in the
env-config module (`src/unnamed/part_003`). -/
structure EnvironmentConfig where
  name : String
  apiUrl : String
  apiBaseUrl : String
  debug : Bool
  enableLogging : Bool
  isProduction : Bool
deriving DecidableEq, Repr

/-- The `development` entry of the `environments` record. -/
def developmentConfig : EnvironmentConfig :=
  { name := "Development", apiUrl := "http://localhost:5000/api-v1",
    apiBaseUrl := "http://localhost:5000", debug := true,
    enableLogging := true, isProduction := false }

/-- The `production` entry of the `environments` record. -/
def productionConfig : EnvironmentConfig :=
  { name := "Production", apiUrl := "https://your-production-domain.com/api-v1",
    apiBaseUrl := "https://your-production-domain.com", debug := false,
    enableLogging := false, isProduction := true }

/-- The `staging` entry of the `environments` record. -/
def stagingConfig : EnvironmentConfig :=
  { name := "Staging", apiUrl := "https://staging.your-domain.com/api-v1",
    apiBaseUrl := "https://staging.your-domain.com", debug := true,
    enableLogging := true, isProduction := false }

/-- The `environments` record of the env-config module, as a lookup from
key to configuration (`none` for a key not in the record). -/
def environments (key : String) : Option EnvironmentConfig :=
  if key == "development" then some developmentConfig
  else if key == "production" then some productionConfig
  else if key == "staging" then some stagingConfig
  else none

/-- JavaScript truthiness test used by `storedEnv && environments[storedEnv]`
(and the analogous check on `VITE_APP_ENV`): the optional string must be
present, non-empty, and name an entry of `environments`. -/
def truthyEnvKey (o : Option String) : Option String :=
  match o with
  | some s => if s != "" && (environments s).isSome then some s else none
  | none => none

/-- `getCurrentEnvironment` from the env-config module.  `hasWindow` models
`typeof window !== 'undefined'`, `stored` the value of
`localStorage.getItem('app-environment')`, `vite` the value of
`import.meta.env?.VITE_APP_ENV`, and `isProd` the `import.meta.env.PROD`
flag.  Priority: localStorage, then the env variable, then the
production/development default. -/
def getCurrentEnvironment (hasWindow : Bool) (stored vite : Option String)
    (isProd : Bool) : String :=
  match (if hasWindow then truthyEnvKey stored else none) with
  | some s => s
  | none =>
      match truthyEnvKey vite with
      | some v => v
      | none => if isProd then "production" else "development"

/-- JavaScript `a || b` for an optional string override: the override wins
when it is present and non-empty (truthy), otherwise the default stands. -/
def jsOrString (o : Option String) (d : String) : String :=
  match o with
  | some s => if s != "" then s else d
  | none => d

/-- The override merge performed at the end of `getEnvironmentConfig`:
`VITE_API_URL`/`VITE_API_BASE_URL` replace the URLs when truthy, and
`VITE_DEBUG === 'true' || config.debug` (likewise for logging). -/
def applyEnvOverrides (config : EnvironmentConfig)
    (apiUrl apiBase dbg logging : Option String) : EnvironmentConfig :=
  { config with
    apiUrl := jsOrString apiUrl config.apiUrl,
    apiBaseUrl := jsOrString apiBase config.apiBaseUrl,
    debug := (dbg == some "true") || config.debug,
    enableLogging := (logging == some "true") || config.enableLogging }

/-- `getEnvironmentConfig` from the env-config module: looks up the
current environment in `environments`, falls back to the development
configuration when the lookup misses, then applies the environment-variable
overrides. -/
def getEnvironmentConfig (hasWindow : Bool) (stored vite : Option String)
    (isProd : Bool) (apiUrl apiBase dbg logging : Option String) :
    EnvironmentConfig :=
  match environments (getCurrentEnvironment hasWindow stored vite isProd) with
  | none => developmentConfig
  | some config => applyEnvOverrides config apiUrl apiBase dbg logging

/-- The error value thrown by an attempt inside `withRetry`
(`fetch-util.ts`): all the retry logic inspects is the optional HTTP status
`(error as any)?.response?.status`. -/
structure RetryErr where
  status : Option Nat
deriving DecidableEq, Repr

/-- The non-retryable check of `withRetry`: an HTTP response status of 401,
403 or 404 is rethrown immediately. -/
def isNoRetry (e : RetryErr) : Bool :=
  e.status == some 401 || e.status == some 403 || e.status == some 404

/-- The retry loop of `withRetry`, embedded with the attempt counter made
explicit.  `attempt` is the 1-based loop index, `lastError` the last caught
error (`none` models the initial `undefined`), and `remaining` the number
of loop iterations left (`maxRetries - attempt + 1`).  The second component
of the result counts how many times `op` is invoked.  An `Except.error
none` outcome models the final `throw lastError` when `lastError` is still
`undefined` (a `maxRetries` of 0).  The backoff delay is timing-only and is
elided. -/
def withRetryGo {α : Type} (op : Nat → Except RetryErr α) (attempt : Nat)
    (lastError : Option RetryErr) : Nat → Except (Option RetryErr) α × Nat
  | 0 => (Except.error lastError, 0)
  | n + 1 =>
      match op attempt with
      | Except.ok v => (Except.ok v, 1)
      | Except.error e =>
          if isNoRetry e then (Except.error (some e), 1)
          else
            let r := withRetryGo op (attempt + 1) (some e) n
            (r.1, r.2 + 1)

/-- `withRetry(operation, maxRetries)` from `fetch-util.ts`: runs attempts
1 through `maxRetries`, returning the first success, rethrowing a
401/403/404 failure immediately, and otherwise throwing the last error
after the loop.  `op n` is the outcome of the n-th invocation of
`operation`; the second component of the result counts invocations. -/
def withRetry {α : Type} (op : Nat → Except RetryErr α) (maxRetries : Nat) :
    Except (Option RetryErr) α × Nat :=
  withRetryGo op 1 none maxRetries

/-- Iterated verification: apply `otpVerify` (keeping the post-state)
`n` times with the same time, purpose and candidate code. -/
def verifyIter (cfg : OtpConfig) (now : Nat) (p : Purpose) (c : Nat) :
    Nat → User → User
  | 0, u => u
  | n + 1, u => verifyIter cfg now p c n (otpVerify cfg now p c u).1

lemma otpVerify_no_pending (cfg : OtpConfig) (now : Nat) (p : Purpose)
    (c : Nat) (u : User) (h : u.pendingOtp = none) :
    otpVerify cfg now p c u = (u, Except.error AuthErr.notFound) := by
  simp [otpVerify, h]

lemma otpVerify_ok (cfg : OtpConfig) (now : Nat) (p : Purpose) (c : Nat)
    (u : User) (o : PendingOtp) (hpend : u.pendingOtp = some o)
    (hexp : ¬ o.expiresAt < now) (hp : o.purpose = p)
    (hcode : o.codeHash = hashOtp c) :
    otpVerify cfg now p c u = ({ u with pendingOtp := none }, Except.ok ()) := by
  simp [otpVerify, hpend, hexp, hp, hcode]

lemma otpVerify_wrong_inc (cfg : OtpConfig) (now : Nat) (p : Purpose)
    (c : Nat) (u : User) (o : PendingOtp) (hpend : u.pendingOtp = some o)
    (hexp : ¬ o.expiresAt < now) (hp : o.purpose = p)
    (hc : hashOtp c ≠ o.codeHash) (hlt : o.attempts + 1 < cfg.maxAttempts) :
    otpVerify cfg now p c u =
      ({ u with pendingOtp := some { o with attempts := o.attempts + 1 } },
       Except.error AuthErr.invalidCode) := by
  simp [otpVerify, hpend, hexp, hp, hc, Nat.not_le.mpr hlt]

lemma otpVerify_wrong_lock (cfg : OtpConfig) (now : Nat) (p : Purpose)
    (c : Nat) (u : User) (o : PendingOtp) (hpend : u.pendingOtp = some o)
    (hexp : ¬ o.expiresAt < now) (hp : o.purpose = p)
    (hc : hashOtp c ≠ o.codeHash) (hge : cfg.maxAttempts ≤ o.attempts + 1) :
    otpVerify cfg now p c u =
      ({ u with pendingOtp := none }, Except.error AuthErr.invalidCode) := by
  simp [otpVerify, hpend, hexp, hp, hc, hge]

lemma otpResend_ok_eq (cfg : OtpConfig) (now code : Nat) (p : Purpose)
    (u : User) (res : User × Nat) (h : otpResend cfg now code p u = Except.ok res) :
    res = otpIssue cfg now code p u := by
  cases hp : u.pendingOtp with
  | none => simp [otpResend, hp] at h; exact h.symm
  | some o =>
      simp only [otpResend, hp] at h
      by_cases hc : now - o.lastSentAt < cfg.cooldown
      · simp [hc] at h
      · simp [hc] at h; exact h.symm

/-- C2: for every pending, unexpired OTP, `verify` with the correct code
and matching purpose succeeds and clears `pendingOtp`; a second `verify`
call with the same code after the success fails with `NotFoundError`. -/
theorem otpVerify_correct_succeeds_once (cfg : OtpConfig) (now now' : Nat)
    (p : Purpose) (code : Nat) (u : User) (o : PendingOtp)
    (hpend : u.pendingOtp = some o) (hexp : ¬ o.expiresAt < now)
    (hp : o.purpose = p) (hcode : o.codeHash = hashOtp code) :
    otpVerify cfg now p code u = ({ u with pendingOtp := none }, Except.ok ()) ∧
    (otpVerify cfg now' p code { u with pendingOtp := none }).2 =
      Except.error AuthErr.notFound := by
  constructor
  · simp [otpVerify, hpend, hexp, hp, hcode]
  · simp [otpVerify]

/-- C6: for every user with a pending OTP, `resend` fails with
`ThrottledError` while the elapsed time since `lastSentAt` is below the
cooldown, and once the cooldown has elapsed it behaves exactly as `issue`. -/
theorem otpResend_throttle_then_issue (cfg : OtpConfig) (now code : Nat)
    (p : Purpose) (u : User) (o : PendingOtp) (hpend : u.pendingOtp = some o) :
    (now - o.lastSentAt < cfg.cooldown →
       otpResend cfg now code p u = Except.error AuthErr.throttled) ∧
    (cfg.cooldown ≤ now - o.lastSentAt →
       otpResend cfg now code p u = Except.ok (otpIssue cfg now code p u)) := by
  constructor
  · intro h; simp [otpResend, hpend, h]
  · intro h; simp [otpResend, hpend, Nat.not_lt.mpr h]

/-- C7: `forgotPassword` fails with `NotFoundError` when no user has the
email, and otherwise issues an OTP of purpose `passwordReset` for the
matching user. -/
theorem forgotPassword_cases (cfg : OtpConfig) (now code : Nat)
    (users : List User) (email : String) :
    (findByEmail users email = none →
       forgotPasswordSM cfg now code users email = Except.error AuthErr.notFound) ∧
    (∀ u, findByEmail users email = some u →
       forgotPasswordSM cfg now code users email =
         Except.ok (updateById users u.id
           (otpIssue cfg now code Purpose.passwordReset u).1, code) ∧
       ((otpIssue cfg now code Purpose.passwordReset u).1.pendingOtp.map
           PendingOtp.purpose) = some Purpose.passwordReset) := by
  constructor
  · intro h; simp [forgotPasswordSM, h]
  · intro u h
    constructor
    · simp [forgotPasswordSM, h, otpIssue]
    · simp [otpIssue]

/-- C8: `resendOtp` takes no purpose argument: it looks up the purpose of
the user's currently pending OTP and delegates to OTP Engine `resend` for
that purpose, and fails with `NotFoundError` when no OTP is pending. -/
theorem resendOtp_purposeless_delegation (cfg : OtpConfig) (now code : Nat)
    (u : User) :
    (u.pendingOtp = none →
       resendOtpSM cfg now code u = Except.error AuthErr.notFound) ∧
    (∀ o, u.pendingOtp = some o →
       resendOtpSM cfg now code u = otpResend cfg now code o.purpose u) := by
  constructor
  · intro h; simp [resendOtpSM, h]
  · intro o h; simp [resendOtpSM, h]

/-- C4: `login` fails with `NotFoundError` when no user matches the email,
fails with `UnauthorizedError` when the password fails Password Codec
verification or the user is unverified, and on success issues an OTP of
purpose `login` and returns the user id.  The result type carries no
`SessionToken`, so no session token is issued on this path; in particular
a user with `verified = false` only ever receives `UnauthorizedError`. -/
theorem login_cases (cfg : OtpConfig) (now code : Nat) (users : List User)
    (email password : String) :
    (findByEmail users email = none →
       loginSM cfg now code users email password = Except.error AuthErr.notFound) ∧
    (∀ u, findByEmail users email = some u →
       pcVerify password u.passwordHash = false →
       loginSM cfg now code users email password = Except.error AuthErr.unauthorized) ∧
    (∀ u, findByEmail users email = some u → u.verified = false →
       loginSM cfg now code users email password = Except.error AuthErr.unauthorized) ∧
    (∀ u, findByEmail users email = some u →
       pcVerify password u.passwordHash = true → u.verified = true →
       loginSM cfg now code users email password =
         Except.ok (updateById users u.id (otpIssue cfg now code Purpose.login u).1, u.id) ∧
       ((otpIssue cfg now code Purpose.login u).1.pendingOtp.map
           PendingOtp.purpose) = some Purpose.login) := by
  refine ⟨?_, ?_, ?_, ?_⟩
  · intro h; simp [loginSM, h]
  · intro u h hpw; simp [loginSM, h, hpw]
  · intro u h hver; simp [loginSM, h, hver]
  · intro u h hpw hver
    constructor
    · simp [loginSM, h, hpw, hver]
    · simp [otpIssue]

/-- C5: `verifyRegistration` delegates to OTP Engine `verify` with purpose
`registration`; on success it sets `verified := true` and immediately mints
a session token via the Session Issuer, and on failure it propagates the
OTP Engine's error unchanged (keeping the engine's post-state). -/
theorem verifyRegistration_delegates (cfg : OtpConfig) (now code : Nat)
    (u : User) :
    (∀ u', otpVerify cfg now Purpose.registration code u = (u', Except.ok ()) →
       verifyRegistration cfg now code u =
         ({ u' with verified := true }, Except.ok (sessionMint u.id now))) ∧
    (∀ u' e, otpVerify cfg now Purpose.registration code u = (u', Except.error e) →
       verifyRegistration cfg now code u = (u', Except.error e)) := by
  constructor
  · intro u' h; simp [verifyRegistration, h]
  · intro u' e h; simp [verifyRegistration, h]

/-- C3: the data model holds at most one pending OTP per user; issuing (or
successfully resending) a new OTP for any purpose overwrites the prior
pending one regardless of its purpose, and afterwards the only
code/purpose pair that verifies is the newly issued one. -/
theorem single_pending_otp (cfg : OtpConfig) (now code : Nat) (p : Purpose)
    (u : User) :
    (∀ v : User, pendingCount v ≤ 1) ∧
    ((otpIssue cfg now code p u).1.pendingOtp = some {
        codeHash := hashOtp code, purpose := p, createdAt := now,
        expiresAt := now + cfg.otpTtl, attempts := 0, lastSentAt := now }) ∧
    (∀ res, otpResend cfg now code p u = Except.ok res →
       res = otpIssue cfg now code p u) ∧
    (∀ v q c, (otpVerify cfg v q c (otpIssue cfg now code p u).1).2 = Except.ok () →
       c = code ∧ q = p) := by
  refine ⟨?_, ?_, ?_, ?_⟩
  · intro v; cases h : v.pendingOtp <;> simp [pendingCount, h]
  · simp [otpIssue]
  · intro res h; exact otpResend_ok_eq cfg now code p u res h
  · intro v q c h
    simp only [otpIssue, otpVerify] at h
    by_cases hexp : now + cfg.otpTtl < v
    · simp [hexp] at h
    · by_cases hq : p = q
      · by_cases hc : c = code
        · exact ⟨hc, hq.symm⟩
        · exfalso
          simp only [hashOtp] at h
          by_cases hm : cfg.maxAttempts ≤ 0 + 1 <;>
            simp [hexp, hq, hc, hm] at h
      · exfalso; simp [hexp, hq] at h

/-- The pending OTP produced by issuing `code` at time `t` for purpose `p`
under the default configuration, after `a` failed attempts. -/
def otpAt (code t a : Nat) (p : Purpose) : PendingOtp :=
  { codeHash := hashOtp code, purpose := p, createdAt := t,
    expiresAt := t + 300, attempts := a, lastSentAt := t }

lemma verifyIter_wrong_step (v t code wrong a : Nat) (p : Purpose) (w : User)
    (hw : w.pendingOtp = some (otpAt code t a p)) (hv : v ≤ t + 300)
    (hne : wrong ≠ code) (ha : a + 1 < 5) :
    (otpVerify defaultOtpConfig v p wrong w).1 =
      { w with pendingOtp := some (otpAt code t (a + 1) p) } := by
  rw [otpVerify_wrong_inc defaultOtpConfig v p wrong w (otpAt code t a p) hw
    (by simpa [otpAt] using Nat.not_lt.mpr hv) rfl
    (by simpa [otpAt, hashOtp] using hne)
    (by simpa [otpAt, defaultOtpConfig] using ha)]
  simp [otpAt]

lemma verifyIter_locks (v t code wrong : Nat) (p : Purpose) :
    ∀ k a (w : User), a + k = 5 → 1 ≤ k →
      w.pendingOtp = some (otpAt code t a p) → v ≤ t + 300 → wrong ≠ code →
      verifyIter defaultOtpConfig v p wrong k w = { w with pendingOtp := none }
  | 0, a, w => by intro _ hk _ _ _; exact absurd hk (by omega)
  | Nat.succ n, a, w => by
    intro hsum hk hw hv hne
    by_cases hn : n = 0
    · subst hn
      have ha : a = 4 := by omega
      subst ha
      simp only [verifyIter]
      rw [otpVerify_wrong_lock defaultOtpConfig v p wrong w (otpAt code t 4 p) hw
        (by simpa [otpAt] using Nat.not_lt.mpr hv) rfl
        (by simpa [otpAt, hashOtp] using hne)
        (by simp [otpAt, defaultOtpConfig])]
    · have hstep := verifyIter_wrong_step v t code wrong a p w hw hv hne (by omega)
      simp only [verifyIter]
      rw [hstep]
      rw [verifyIter_locks v t code wrong p n (a + 1)
        { w with pendingOtp := some (otpAt code t (a + 1) p) }
        (by omega) (by omega) rfl hv hne]

/-- C1: the attempts counter of a pending OTP never exceeds the configured
maximum: it is 0 after `issue` and after a successful `resend`, and every
`verify` call preserves the bound; and, under the default configuration
(maximum 5), after exactly 5 consecutive wrong-code `verify` calls on an
unexpired OTP the OTP is invalidated (`pendingOtp` cleared), a subsequent
`verify` with the correct code fails (`NotFoundError`), and only a fresh
issue creates a new OTP that the correct code verifies again. -/
theorem otp_attempt_limit (t v code wrong : Nat) (p : Purpose) (u : User) :
    (∀ cfg now c q w o, (otpIssue cfg now c q w).1.pendingOtp = some o →
       o.attempts ≤ cfg.maxAttempts) ∧
    (∀ cfg now c q w res o, otpResend cfg now c q w = Except.ok res →
       res.1.pendingOtp = some o → o.attempts ≤ cfg.maxAttempts) ∧
    (∀ cfg now c q w o o', w.pendingOtp = some o →
       o.attempts ≤ cfg.maxAttempts →
       (otpVerify cfg now q c w).1.pendingOtp = some o' →
       o'.attempts ≤ cfg.maxAttempts) ∧
    (wrong ≠ code → v ≤ t + 300 →
       (verifyIter defaultOtpConfig v p wrong 5
           (otpIssue defaultOtpConfig t code p u).1).pendingOtp = none ∧
       (otpVerify defaultOtpConfig v p code
           (verifyIter defaultOtpConfig v p wrong 5
             (otpIssue defaultOtpConfig t code p u).1)).2 =
         Except.error AuthErr.notFound ∧
       (∀ t2 c2, (otpVerify defaultOtpConfig t2 p c2
           (otpIssue defaultOtpConfig t2 c2 p
             (verifyIter defaultOtpConfig v p wrong 5
               (otpIssue defaultOtpConfig t code p u).1)).1).2 = Except.ok ())) := by
  refine ⟨?_, ?_, ?_, ?_⟩
  · intro cfg now c q w o h
    simp [otpIssue] at h
    simp [← h]
  · intro cfg now c q w res o hres h
    rw [otpResend_ok_eq cfg now c q w res hres] at h
    simp [otpIssue] at h
    simp [← h]
  · intro cfg now c q w o o' hpend hle h'
    simp only [otpVerify, hpend] at h'
    split at h'
    · simp [hpend] at h'
      exact h' ▸ hle
    · split at h'
      · simp [hpend] at h'
        exact h' ▸ hle
      · split at h'
        · simp at h'
        · split at h'
          · simp at h'
          · simp only [] at h'
            rename_i hmax
            simp at h'
            rw [← h']
            simp at hmax ⊢
            omega
  · intro hne hv
    have hlock := verifyIter_locks v t code wrong p 5 0
      (otpIssue defaultOtpConfig t code p u).1 (by omega) (by omega) rfl hv hne
    refine ⟨?_, ?_, ?_⟩
    · rw [hlock]
    · rw [hlock, otpVerify_no_pending defaultOtpConfig v p code _ rfl]
    · intro t2 c2
      rw [otpVerify_ok defaultOtpConfig t2 p c2 _ (otpAt c2 t2 0 p) rfl
        (by simp [otpAt]) rfl rfl]

lemma truthyEnvKey_isSome (o : Option String) (s : String)
    (h : truthyEnvKey o = some s) : (environments s).isSome = true := by
  cases o with
  | none => simp [truthyEnvKey] at h
  | some w =>
      simp only [truthyEnvKey] at h
      split at h
      · rename_i hb
        cases h
        simp at hb
        exact hb.2
      · simp at h

lemma getCurrentEnvironment_isSome (hw : Bool) (stored vite : Option String)
    (isProd : Bool) :
    (environments (getCurrentEnvironment hw stored vite isProd)).isSome = true := by
  unfold getCurrentEnvironment
  cases h1 : (if hw then truthyEnvKey stored else none) with
  | some s =>
      have : truthyEnvKey stored = some s := by
        cases hw
        · simp at h1
        · simpa using h1
      simpa using truthyEnvKey_isSome stored s this
  | none =>
      cases h2 : truthyEnvKey vite with
      | some s => simpa using truthyEnvKey_isSome vite s h2
      | none => cases isProd <;> simp [environments]

/-- C9: for every state of `localStorage`, of `VITE_APP_ENV`, and of the
override variables, `getCurrentEnvironment` returns a key present in the
`environments` record (an unknown stored or configured name is ignored in
favour of the production/development default), so `getEnvironmentConfig`
always resolves to a defined configuration and the development fallback
never has to mask a missing entry. -/
theorem getCurrentEnvironment_total (hw : Bool) (stored vite : Option String)
    (isProd : Bool) (apiUrl apiBase dbg logging : Option String) :
    (environments (getCurrentEnvironment hw stored vite isProd)).isSome = true ∧
    (∀ s w, environments s = none → environments w = none →
       getCurrentEnvironment hw (some s) (some w) isProd =
         if isProd then "production" else "development") ∧
    (∃ c, environments (getCurrentEnvironment hw stored vite isProd) = some c ∧
       getEnvironmentConfig hw stored vite isProd apiUrl apiBase dbg logging =
         applyEnvOverrides c apiUrl apiBase dbg logging) := by
  refine ⟨getCurrentEnvironment_isSome hw stored vite isProd, ?_, ?_⟩
  · intro s w hs hw'
    simp [getCurrentEnvironment, truthyEnvKey, hs, hw']
  · obtain ⟨c, hc⟩ := Option.isSome_iff_exists.mp
      (getCurrentEnvironment_isSome hw stored vite isProd)
    exact ⟨c, hc, by simp [getEnvironmentConfig, hc]⟩

lemma withRetryGo_count_le {α : Type} (op : Nat → Except RetryErr α) :
    ∀ (n attempt : Nat) (lastError : Option RetryErr),
      (withRetryGo op attempt lastError n).2 ≤ n := by
  intro n
  induction n with
  | zero => intro attempt lastError; simp [withRetryGo]
  | succ m ih =>
      intro attempt lastError
      simp only [withRetryGo]
      cases op attempt with
      | ok v => simp
      | error e =>
          by_cases h : isNoRetry e
          · simp [h]
          · simpa [h] using ih (attempt + 1) (some e)

lemma withRetryGo_noretry_stops {α : Type} (op : Nat → Except RetryErr α) :
    ∀ (i attempt : Nat) (lastError : Option RetryErr) (n : Nat), i < n →
      (∀ j, j < i → ∃ ej, op (attempt + j) = Except.error ej ∧ isNoRetry ej = false) →
      ∀ e, op (attempt + i) = Except.error e → isNoRetry e = true →
      withRetryGo op attempt lastError n = (Except.error (some e), i + 1) := by
  intro i
  induction i with
  | zero =>
      intro attempt lastError n hn htrace e hop hnr
      obtain ⟨m, rfl⟩ := Nat.exists_eq_succ_of_ne_zero (by omega : n ≠ 0)
      simp only [withRetryGo]
      rw [show attempt + 0 = attempt from rfl] at hop
      rw [hop]
      simp [hnr]
  | succ i ih =>
      intro attempt lastError n hn htrace e hop hnr
      obtain ⟨m, rfl⟩ := Nat.exists_eq_succ_of_ne_zero (by omega : n ≠ 0)
      obtain ⟨e0, he0, hnr0⟩ := htrace 0 (by omega)
      rw [show attempt + 0 = attempt from rfl] at he0
      simp only [withRetryGo]
      rw [he0]
      simp only [hnr0, Bool.false_eq_true, if_false]
      have htrace' : ∀ j, j < i →
          ∃ ej, op (attempt + 1 + j) = Except.error ej ∧ isNoRetry ej = false := by
        intro j hj
        obtain ⟨ej, hej, hnrj⟩ := htrace (j + 1) (by omega)
        exact ⟨ej, by rw [show attempt + 1 + j = attempt + (j + 1) by omega]; exact hej, hnrj⟩
      have hop' : op (attempt + 1 + i) = Except.error e := by
        rw [show attempt + 1 + i = attempt + (i + 1) by omega]; exact hop
      rw [ih (attempt + 1) (some e0) m (by omega) htrace' e hop' hnr]

/-- C10: `withRetry` invokes the operation at most `maxRetries` times, and
when an attempt fails with an HTTP response status of 401, 403 or 404 it
rethrows that error immediately, performing no further attempts: if the
first `i` attempts failed with retryable errors and attempt `i + 1` fails
with a non-retryable status, the result is exactly that error after
`i + 1` invocations. -/
theorem withRetry_bounded_and_noretry (α : Type)
    (op : Nat → Except RetryErr α) (maxRetries : Nat) :
    (withRetry op maxRetries).2 ≤ maxRetries ∧
    (∀ i e, i < maxRetries →
       (∀ j, j < i → ∃ ej, op (1 + j) = Except.error ej ∧ isNoRetry ej = false) →
       op (1 + i) = Except.error e → isNoRetry e = true →
       withRetry op maxRetries = (Except.error (some e), i + 1)) := by
  constructor
  · exact withRetryGo_count_le op maxRetries 1 none
  · intro i e hi htrace hop hnr
    exact withRetryGo_noretry_stops op i 1 none maxRetries hi htrace e hop hnr

/-- Concrete pending login OTP used by the witnesses: code 222222 issued at
time 0. -/
def otpW : PendingOtp := otpAt 222222 0 0 Purpose.login

/-- Concrete verified user with a pending login OTP, used by the witnesses. -/
def userW : User :=
  { id := 7, email := "ann@x.com", name := "Ann",
    passwordHash := "Str0ng!Pass1234", verified := true,
    pendingOtp := some otpW }

/-- Concrete unverified user with no pending OTP, used by the witnesses. -/
def userNoOtpW : User :=
  { id := 8, email := "bob@x.com", name := "Bob", passwordHash := "pw2",
    verified := false, pendingOtp := none }

/-- Concrete unverified user with a pending registration OTP (code 444444
issued at time 0), used by the witnesses. -/
def userRegW : User :=
  { id := 9, email := "cara@x.com", name := "Cara", passwordHash := "pw3",
    verified := false, pendingOtp := some (otpAt 444444 0 0 Purpose.registration) }

/-- Concrete two-user store used by the witnesses. -/
def usersW : List User := [userW, userNoOtpW]

theorem otp_attempt_limit_witness :
    (111111 : Nat) ≠ 222222 ∧ (10 : Nat) ≤ 0 + 300 ∧
    (verifyIter defaultOtpConfig 10 Purpose.login 111111 5
        (otpIssue defaultOtpConfig 0 222222 Purpose.login userNoOtpW).1).pendingOtp = none ∧
    (otpVerify defaultOtpConfig 10 Purpose.login 222222
        (verifyIter defaultOtpConfig 10 Purpose.login 111111 5
          (otpIssue defaultOtpConfig 0 222222 Purpose.login userNoOtpW).1)).2 =
      Except.error AuthErr.notFound ∧
    (otpVerify defaultOtpConfig 400 Purpose.login 333333
        (otpIssue defaultOtpConfig 400 333333 Purpose.login
          (verifyIter defaultOtpConfig 10 Purpose.login 111111 5
            (otpIssue defaultOtpConfig 0 222222 Purpose.login userNoOtpW).1)).1).2 =
      Except.ok () :=
  have h := (otp_attempt_limit 0 10 222222 111111 Purpose.login userNoOtpW).2.2.2
    (by decide) (by decide)
  ⟨by decide, by decide, h.1, h.2.1, h.2.2 400 333333⟩

theorem otpVerify_correct_succeeds_once_witness :
    userW.pendingOtp = some otpW ∧ ¬ otpW.expiresAt < 10 ∧
    otpW.purpose = Purpose.login ∧ otpW.codeHash = hashOtp 222222 ∧
    (otpVerify defaultOtpConfig 10 Purpose.login 222222 userW =
       ({ userW with pendingOtp := none }, Except.ok ()) ∧
     (otpVerify defaultOtpConfig 20 Purpose.login 222222
        { userW with pendingOtp := none }).2 = Except.error AuthErr.notFound) :=
  ⟨rfl, by decide, rfl, rfl,
   otpVerify_correct_succeeds_once defaultOtpConfig 10 20 Purpose.login 222222
     userW otpW rfl (by decide) rfl rfl⟩

theorem single_pending_otp_witness :
    pendingCount userW ≤ 1 ∧
    (otpIssue defaultOtpConfig 90 333333 Purpose.login userW).1.pendingOtp = some {
        codeHash := hashOtp 333333, purpose := Purpose.login, createdAt := 90,
        expiresAt := 90 + defaultOtpConfig.otpTtl, attempts := 0,
        lastSentAt := 90 } ∧
    otpResend defaultOtpConfig 90 333333 Purpose.login userW =
      Except.ok (otpIssue defaultOtpConfig 90 333333 Purpose.login userW) ∧
    (otpVerify defaultOtpConfig 100 Purpose.login 333333
        (otpIssue defaultOtpConfig 90 333333 Purpose.login userW).1).2 =
      Except.ok () ∧
    ((333333 : Nat) = 333333 ∧ Purpose.login = Purpose.login) :=
  have h := single_pending_otp defaultOtpConfig 90 333333 Purpose.login userW
  ⟨h.1 userW, h.2.1, rfl, rfl, h.2.2.2 100 Purpose.login 333333 rfl⟩

theorem login_cases_witness :
    findByEmail usersW "zz@x.com" = none ∧
    loginSM defaultOtpConfig 0 111111 usersW "zz@x.com" "x" =
      Except.error AuthErr.notFound ∧
    findByEmail usersW "ann@x.com" = some userW ∧
    pcVerify "wrongpass" userW.passwordHash = false ∧
    loginSM defaultOtpConfig 0 111111 usersW "ann@x.com" "wrongpass" =
      Except.error AuthErr.unauthorized ∧
    findByEmail usersW "bob@x.com" = some userNoOtpW ∧
    userNoOtpW.verified = false ∧
    loginSM defaultOtpConfig 0 111111 usersW "bob@x.com" "pw2" =
      Except.error AuthErr.unauthorized ∧
    pcVerify "Str0ng!Pass1234" userW.passwordHash = true ∧
    userW.verified = true ∧
    loginSM defaultOtpConfig 0 111111 usersW "ann@x.com" "Str0ng!Pass1234" =
      Except.ok (updateById usersW userW.id
        (otpIssue defaultOtpConfig 0 111111 Purpose.login userW).1, userW.id) :=
  ⟨by decide,
   (login_cases defaultOtpConfig 0 111111 usersW "zz@x.com" "x").1 (by decide),
   by decide, by decide,
   (login_cases defaultOtpConfig 0 111111 usersW "ann@x.com" "wrongpass").2.1
     userW (by decide) (by decide),
   by decide, by decide,
   (login_cases defaultOtpConfig 0 111111 usersW "bob@x.com" "pw2").2.2.1
     userNoOtpW (by decide) (by decide),
   by decide, by decide,
   ((login_cases defaultOtpConfig 0 111111 usersW "ann@x.com"
       "Str0ng!Pass1234").2.2.2 userW (by decide) (by decide) (by decide)).1⟩

theorem verifyRegistration_delegates_witness :
    otpVerify defaultOtpConfig 10 Purpose.registration 444444 userRegW =
      ({ userRegW with pendingOtp := none }, Except.ok ()) ∧
    verifyRegistration defaultOtpConfig 10 444444 userRegW =
      ({ userRegW with pendingOtp := none, verified := true },
       Except.ok (sessionMint userRegW.id 10)) ∧
    otpVerify defaultOtpConfig 10 Purpose.registration 555555 userRegW =
      ({ userRegW with
         pendingOtp := some (otpAt 444444 0 1 Purpose.registration) },
       Except.error AuthErr.invalidCode) ∧
    verifyRegistration defaultOtpConfig 10 555555 userRegW =
      ({ userRegW with
         pendingOtp := some (otpAt 444444 0 1 Purpose.registration) },
       Except.error AuthErr.invalidCode) :=
  have h := verifyRegistration_delegates defaultOtpConfig 10 444444 userRegW
  have h' := verifyRegistration_delegates defaultOtpConfig 10 555555 userRegW
  ⟨rfl, h.1 { userRegW with pendingOtp := none } rfl,
   rfl,
   h'.2 { userRegW with pendingOtp := some (otpAt 444444 0 1 Purpose.registration) }
     AuthErr.invalidCode rfl⟩

theorem otpResend_throttle_then_issue_witness :
    userW.pendingOtp = some otpW ∧
    (30 : Nat) - otpW.lastSentAt < defaultOtpConfig.cooldown ∧
    otpResend defaultOtpConfig 30 333333 Purpose.login userW =
      Except.error AuthErr.throttled ∧
    defaultOtpConfig.cooldown ≤ (90 : Nat) - otpW.lastSentAt ∧
    otpResend defaultOtpConfig 90 333333 Purpose.login userW =
      Except.ok (otpIssue defaultOtpConfig 90 333333 Purpose.login userW) :=
  ⟨rfl, by decide,
   (otpResend_throttle_then_issue defaultOtpConfig 30 333333 Purpose.login
      userW otpW rfl).1 (by decide),
   by decide,
   (otpResend_throttle_then_issue defaultOtpConfig 90 333333 Purpose.login
      userW otpW rfl).2 (by decide)⟩

theorem forgotPassword_cases_witness :
    findByEmail usersW "zz@x.com" = none ∧
    forgotPasswordSM defaultOtpConfig 0 111111 usersW "zz@x.com" =
      Except.error AuthErr.notFound ∧
    findByEmail usersW "ann@x.com" = some userW ∧
    forgotPasswordSM defaultOtpConfig 0 111111 usersW "ann@x.com" =
      Except.ok (updateById usersW userW.id
        (otpIssue defaultOtpConfig 0 111111 Purpose.passwordReset userW).1,
        111111) ∧
    ((otpIssue defaultOtpConfig 0 111111 Purpose.passwordReset
        userW).1.pendingOtp.map PendingOtp.purpose) = some Purpose.passwordReset :=
  ⟨by decide,
   (forgotPassword_cases defaultOtpConfig 0 111111 usersW "zz@x.com").1 (by decide),
   by decide,
   ((forgotPassword_cases defaultOtpConfig 0 111111 usersW "ann@x.com").2
      userW (by decide)).1,
   ((forgotPassword_cases defaultOtpConfig 0 111111 usersW "ann@x.com").2
      userW (by decide)).2⟩

theorem resendOtp_purposeless_delegation_witness :
    userNoOtpW.pendingOtp = none ∧
    resendOtpSM defaultOtpConfig 0 111111 userNoOtpW =
      Except.error AuthErr.notFound ∧
    userW.pendingOtp = some otpW ∧
    resendOtpSM defaultOtpConfig 90 111111 userW =
      otpResend defaultOtpConfig 90 111111 otpW.purpose userW :=
  ⟨rfl,
   (resendOtp_purposeless_delegation defaultOtpConfig 0 111111 userNoOtpW).1 rfl,
   rfl,
   (resendOtp_purposeless_delegation defaultOtpConfig 90 111111 userW).2 otpW rfl⟩

theorem getCurrentEnvironment_total_witness :
    environments "weird" = none ∧ environments "bogus" = none ∧
    getCurrentEnvironment true (some "weird") (some "bogus") false =
      (if false then "production" else "development") ∧
    (environments (getCurrentEnvironment true (some "weird") (some "bogus")
        false)).isSome = true :=
  have h := getCurrentEnvironment_total true (some "weird") (some "bogus")
    false none none none none
  ⟨by decide, by decide, h.2.1 "weird" "bogus" (by decide) (by decide), h.1⟩

/-- Concrete attempt outcomes for the retry witness: attempt 1 fails with a
retryable 500, every later attempt fails with a non-retryable 404. -/
def opW (n : Nat) : Except RetryErr Unit :=
  if n = 1 then Except.error { status := some 500 }
  else Except.error { status := some 404 }

theorem withRetry_bounded_and_noretry_witness :
    (1 : Nat) < 3 ∧ opW (1 + 1) = Except.error { status := some 404 } ∧
    isNoRetry { status := some 404 } = true ∧
    (withRetry opW 3).2 ≤ 3 ∧
    withRetry opW 3 = (Except.error (some { status := some 404 }), 2) :=
  have h := withRetry_bounded_and_noretry Unit opW 3
  ⟨by decide, rfl, by decide, h.1,
   h.2 1 { status := some 404 } (by decide)
     (fun j hj => by
       have hj0 : j = 0 := by omega
       subst hj0
       exact ⟨{ status := some 500 }, rfl, rfl⟩)
     rfl (by decide)⟩
